import Mathlib

/-!
Shallow embedding of the `move_gravity` demo (src/unnamed/part_000 and
src/dist/types.js): pose-detector factory, render-loop state updates,
pose-to-physics bridge, and the two Matter.js scene builders.

JS numbers are modelled as `ℚ`; JS `undefined`/absent object fields as
`Option`; a thrown exception in a modelled function as `Option.none` or an
explicit outcome constructor.  Mutable module/global state is threaded
explicitly through state records.
-/

/-- src/dist/types.js: the `SupportedModels` string enum. -/
inductive SupportedModels
  | PoseNet
  | BlazePose
  | MoveNet
  deriving DecidableEq, Repr

/-- The `posedetection.movenet.modelType` enum values used in `createDetector`. -/
inductive MoveNetModelType
  | SINGLEPOSE_LIGHTNING
  | SINGLEPOSE_THUNDER
  | MULTIPOSE_LIGHTNING
  deriving DecidableEq, Repr

/-- The JS value stored under the `modelType` key of a detector config:
either the raw string `STATE.modelConfig.type` (BlazePose branches) or a
MoveNet enum value (MoveNet branch). -/
inductive ModelTypeVal
  | str (s : String)
  | movenet (t : MoveNetModelType)
  deriving DecidableEq, Repr

/-- `STATE.modelConfig`: the per-model configuration record read by
`createDetector` (fields `type`, `customModel`, `enableTracking`, `maxPoses`). -/
structure ModelConfig where
  type : String
  customModel : String
  enableTracking : Bool
  maxPoses : Nat
  deriving DecidableEq, Repr

/-- The slice of the global `STATE` record (from ./params) that
`createDetector` and `checkGuiUpdate` read and write: model selection,
backend string, model config and the dirty flags. -/
structure AppState where
  model : SupportedModels
  backend : String
  modelConfig : ModelConfig
  isModelChanged : Bool
  isFlagChanged : Bool
  isBackendChanged : Bool
  isTargetFPSChanged : Bool
  isSizeOptionChanged : Bool
  deriving DecidableEq, Repr

/-- External constant `mpPose.VERSION` of the @mediapipe/pose library.
Its concrete value never influences any claim (it only appears inside the
`solutionPath` URL string), so it is fixed arbitrarily here. -/
def mpPoseVERSION : String := "0.5"

/-- The (optional-field) configuration object passed as second argument to
`posedetection.createDetector`; `none` models a key that is absent or
holds `undefined`. -/
structure DetectorConfig where
  quantBytes : Option Nat := none
  architecture : Option String := none
  outputStride : Option Nat := none
  inputResolutionW : Option Nat := none
  inputResolutionH : Option Nat := none
  multiplier : Option ℚ := none
  runtime : Option String := none
  modelType : Option ModelTypeVal := none
  solutionPath : Option String := none
  modelUrl : Option String := none
  enableTracking : Option Bool := none
  deriving DecidableEq, Repr

/-- The pair of arguments of the `posedetection.createDetector` library
call issued by the wrapper `createDetector` below. -/
structure DetectorRequest where
  model : SupportedModels
  config : DetectorConfig
  deriving DecidableEq, Repr

/-- The MoveNet arm of the `switch` in `createDetector` (lines 64-81):
maps `STATE.modelConfig.type` to a MoveNet enum value (`undefined` for any
other string), then optionally adds `modelUrl` and `enableTracking`.
Shared with the BlazePose arm because that arm has no `break` and falls
through into this one.  The model argument is `STATE.model`, NOT
hard-coded MoveNet. -/
def movenetArm (s : AppState) : DetectorRequest :=
  let modelType : Option MoveNetModelType :=
    if s.modelConfig.type == "lightning" then
      some MoveNetModelType.SINGLEPOSE_LIGHTNING
    else if s.modelConfig.type == "thunder" then
      some MoveNetModelType.SINGLEPOSE_THUNDER
    else if s.modelConfig.type == "multipose" then
      some MoveNetModelType.MULTIPOSE_LIGHTNING
    else
      none
  let cfg : DetectorConfig := { modelType := modelType.map ModelTypeVal.movenet }
  let cfg : DetectorConfig :=
    if s.modelConfig.customModel != "" then
      { cfg with modelUrl := some s.modelConfig.customModel }
    else cfg
  let cfg : DetectorConfig :=
    if s.modelConfig.type == "multipose" then
      { cfg with enableTracking := some s.modelConfig.enableTracking }
    else cfg
  ⟨s.model, cfg⟩

/-- Characters of a string up to (excluding) the first occurrence of `sep`. -/
def charsBefore (sep : Char) : List Char → List Char
  | [] => []
  | c :: cs => if c = sep then [] else c :: charsBefore sep cs

/-- JS `backend.split('-')[0]`: the prefix of `backend` before the first
`'-'` (the whole string when there is none; `""` stays `""`, as JS
`"".split('-')` is `[""]`). -/
def splitHead (backend : String) : String :=
  ⟨charsBefore '-' backend.data⟩

/-- `createDetector` (lines 42-83).  Returns the request forwarded to the
pose-detection library.  The BlazePose `case` computes
`runtime = STATE.backend.split('-')[0]` and returns only when the runtime
is `"mediapipe"` or `"tfjs"`; otherwise, having no `break`, control falls
through into the MoveNet `case`. -/
def createDetector (s : AppState) : DetectorRequest :=
  match s.model with
  | SupportedModels.PoseNet =>
      ⟨s.model,
        { quantBytes := some 4
          architecture := some "MobileNetV1"
          outputStride := some 16
          inputResolutionW := some 500
          inputResolutionH := some 500
          multiplier := some 0.75 }⟩
  | SupportedModels.BlazePose =>
      let runtime := splitHead s.backend
      if runtime == "mediapipe" then
        ⟨s.model,
          { runtime := some runtime
            modelType := some (ModelTypeVal.str s.modelConfig.type)
            solutionPath :=
              some ("https://cdn.jsdelivr.net/npm/@mediapipe/pose@" ++ mpPoseVERSION) }⟩
      else if runtime == "tfjs" then
        ⟨s.model,
          { runtime := some runtime
            modelType := some (ModelTypeVal.str s.modelConfig.type) }⟩
      else
        -- JS switch fall-through: no return taken, execution continues
        -- into `case posedetection.SupportedModels.MoveNet:`.
        movenetArm s
  | SupportedModels.MoveNet => movenetArm s

/-- A detection keypoint: 2D position and optional confidence score
(`score` may be absent on some models, line 240 checks `!= null`). -/
structure Keypoint where
  x : ℚ
  y : ℚ
  score : Option ℚ
  deriving DecidableEq, Repr

/-- A detected pose: its ordered keypoint list. -/
structure Pose where
  keypoints : List Keypoint
  deriving DecidableEq, Repr

/-- The `imageSize` literal of `usePoses` (line 223). -/
structure ImageSize where
  width : ℚ
  height : ℚ
  deriving DecidableEq, Repr

/-- A Matter.js rigid body, reduced to the fields the claims are about:
an allocation identity (Matter bodies are compared by reference), the
`position` vector and the `isStatic` flag.  Render/sprite options, mass
and friction are carried nowhere in any claim and are elided. -/
structure MBody where
  id : Nat
  posX : ℚ
  posY : ℚ
  isStatic : Bool
  deriving DecidableEq, Repr

/-- `Matter.Body.translate(body, delta)`: moves the body BY the given
vector (relative displacement, not an absolute teleport). -/
def bodyTranslate (b : MBody) (dx dy : ℚ) : MBody :=
  { b with posX := b.posX + dx, posY := b.posY + dy }

/-- The inner loop body of `flipPosesHorizontal` (line 230):
`kp.x = imageSize.width - 1 - kp.x`. -/
def flipKeypoint (imageSize : ImageSize) (kp : Keypoint) : Keypoint :=
  { kp with x := imageSize.width - 1 - kp.x }

/-- The outer loop body of `flipPosesHorizontal` (lines 228-231): flip
every keypoint of one pose. -/
def flipPose (imageSize : ImageSize) (pose : Pose) : Pose :=
  { pose with keypoints := pose.keypoints.map (flipKeypoint imageSize) }

/-- `flipPosesHorizontal` (lines 225-234): sets
`kp.x = imageSize.width - 1 - kp.x` on every keypoint of every pose and
returns the poses. -/
def flipPosesHorizontal (poses : List Pose) (imageSize : ImageSize) : List Pose :=
  poses.map (flipPose imageSize)

/-- The `imageSize` constant inside `usePoses`: `{width: 1280, height: 720}`. -/
def usePosesImageSize : ImageSize := ⟨1280, 720⟩

/-- `const scoreThreshold = 0.3 || 0` (line 241); `0.3` is truthy, so the
JS expression evaluates to `0.3`. -/
def scoreThreshold : ℚ := 0.3

/-- `pose.score != null ? pose.score : 1` (line 240): the keypoint's
confidence, defaulting to 1 when absent. -/
def kpScore (kp : Keypoint) : ℚ :=
  match kp.score with
  | some s => s
  | none => 1

/-- `usePoses` (lines 218-249).  Flips all poses horizontally in place,
selects keypoint 10 of the first pose, defaults a missing score to 1,
and when the score reaches `scoreThreshold` translates the attractor body
by `(kp.x * 2.4 - body.position.x, kp.y * 2.4 - body.position.y)`.
Returns the flipped poses (the in-place mutation of module-level `poses`)
and the updated body; `none` models the TypeError thrown by
`poses[0].keypoints[10].score` when `poses` is empty or the first pose has
fewer than 11 keypoints. -/
def usePoses (poses : List Pose) (attractiveBody : MBody) :
    Option (List Pose × MBody) :=
  let flipped := flipPosesHorizontal poses usePosesImageSize
  match flipped.head? with
  | none => none
  | some pose0 =>
    match pose0.keypoints.get? 10 with
    | none => none
    | some pose =>
      let score := kpScore pose
      if score ≥ scoreThreshold then
        some (flipped,
          bodyTranslate attractiveBody
            (pose.x * 2.4 - attractiveBody.posX)
            (pose.y * 2.4 - attractiveBody.posY))
      else
        some (flipped, attractiveBody)

/-- The render loop's own mutable state around `checkGuiUpdate`
(lines 85-116): the global `STATE` slice and the module-level `detector`
handle (a detector is identified by an abstract `Nat` handle; `none` is
JS `null`/`undefined`). -/
structure GuiState where
  app : AppState
  detector : Option Nat
  deriving DecidableEq, Repr

/-- Outcome of the `await createDetector(STATE.model)` call inside the
`try` of `checkGuiUpdate`: a fresh detector handle, or a thrown error. -/
inductive CreateResult
  | ok (d : Nat)
  | err
  deriving DecidableEq, Repr

/-- Observable side effects of one `checkGuiUpdate` call. -/
structure GuiEffects where
  cameraRebuilt : Bool
  rafCancelled : Bool
  disposedDetector : Option Nat
  envFlagsReapplied : Bool
  attemptedCreate : Bool
  alerted : Bool
  deriving DecidableEq, Repr

/-- `checkGuiUpdate` (lines 85-116).  First the camera block (FPS/size
flags), then, if any of the three model dirty flags is set: force
`isModelChanged := true`, cancel the pending animation frame, dispose the
current detector if non-null, reapply backend/env flags when
`isFlagChanged || isBackendChanged`, try to create a new detector
(`none` with an alert on a thrown error), and finally clear all three
flags unconditionally. -/
def checkGuiUpdate (st : GuiState) (createResult : CreateResult) :
    GuiState × GuiEffects :=
  let app := st.app
  let (app, cameraRebuilt) :=
    if app.isTargetFPSChanged || app.isSizeOptionChanged then
      ({ app with isTargetFPSChanged := false, isSizeOptionChanged := false }, true)
    else (app, false)
  if app.isModelChanged || app.isFlagChanged || app.isBackendChanged then
    let app := { app with isModelChanged := true }
    let disposedDetector := st.detector
    let envFlagsReapplied := app.isFlagChanged || app.isBackendChanged
    let (newDetector, alerted) :=
      match createResult with
      | CreateResult.ok d => (some d, false)
      | CreateResult.err => (none, true)
    let app := { app with
      isFlagChanged := false
      isBackendChanged := false
      isModelChanged := false }
    (⟨app, newDetector⟩,
     ⟨cameraRebuilt, true, disposedDetector, envFlagsReapplied, true, alerted⟩)
  else
    (⟨app, st.detector⟩, ⟨cameraRebuilt, false, none, false, false, false⟩)

/-- State read and written by `renderResult` (lines 138-180): the
module-level `detector` handle, the module-level `poses` variable
(line 39 `let poses;` — note line 147's local `let poses = null;` is
commented out, so `poses` PERSISTS across frames), the body `m.attractiveBody`
that `usePoses` translates, and the `STATE.isModelChanged` flag it reads. -/
structure RenderState where
  detector : Option Nat
  poses : Option (List Pose)
  attractiveBody : MBody
  isModelChanged : Bool
  deriving DecidableEq, Repr

/-- Outcome of the `await detector.estimatePoses(...)` call: a fresh pose
list, or a thrown error (caught at lines 161-165). -/
inductive DetectOutcome
  | ok (ps : List Pose)
  | throws
  deriving DecidableEq, Repr

/-- Observable side effects of one `renderResult` call. -/
structure RenderEffects where
  drewCamera : Bool
  drewOverlay : Bool
  bridgeCalled : Bool
  alerted : Bool
  deriving DecidableEq, Repr

/-- `renderResult` (lines 138-180).  If a detector is active, runs
estimation: on success the result is stored into the module-level `poses`;
on a thrown error the detector is disposed, nulled and the error alerted,
leaving `poses` at its previous value.  `camera.drawCtx()` always runs.
Then, whenever the retained `poses` is non-empty and no model change is
pending, `camera.drawResults(poses)` and `usePoses(poses)` run — `usePoses`
flips `poses` in place and may translate the attractor body.  The result is
`none` when `usePoses` throws (first pose with fewer than 11 keypoints),
which would crash the async loop. -/
def renderResult (st : RenderState) (outcome : DetectOutcome) :
    Option (RenderState × RenderEffects) :=
  let (detector, poses, alerted) :=
    match st.detector with
    | none => (none, st.poses, false)
    | some d =>
      match outcome with
      | DetectOutcome.ok ps => (some d, some ps, false)
      | DetectOutcome.throws => (none, st.poses, true)
  let retained := poses.getD []
  if retained.length > 0 && !st.isModelChanged then
    match usePoses retained st.attractiveBody with
    | none => none
    | some (flipped, body) =>
      some (⟨detector, some flipped, body, st.isModelChanged⟩,
            ⟨true, true, true, alerted⟩)
  else
    some (⟨detector, poses, st.attractiveBody, st.isModelChanged⟩,
          ⟨true, false, false, alerted⟩)

/-- The `dimensions` literal (lines 255-258). -/
def dimensionsW : ℚ := 3072
/-- The `dimensions` literal (lines 255-258). -/
def dimensionsH : ℚ := 1728

/-- `percentX` (lines 432-434): `Math.round((percent / 100) * dimensions.width)`. -/
def percentX (percent : ℚ) : ℚ := ((round ((percent / 100) * dimensionsW) : ℤ) : ℚ)

/-- `percentY` (lines 435-437): `Math.round((percent / 100) * dimensions.height)`. -/
def percentY (percent : ℚ) : ℚ := ((round ((percent / 100) * dimensionsH) : ℤ) : ℚ)

/-- `world.gravity` in scene 2. -/
structure Gravity where
  x : ℚ
  y : ℚ
  deriving DecidableEq, Repr

/-- The scene-2 interval state: the module variable `intervalNumber`
(initially 1, line 500) and the world gravity (Matter.js engine default
`{x: 0, y: 1}`, never overwritten before the first tick in `case 2`). -/
structure Scene2State where
  intervalNumber : Nat
  gravity : Gravity
  deriving DecidableEq, Repr

/-- `setGravity` (lines 501-523): each 3-second `setInterval` tick writes
one of four gravity vectors, keyed by `intervalNumber`, which advances
1 → 2 → 3 → (else) and resets to 1 in the `else` branch. -/
def setGravity (st : Scene2State) : Scene2State :=
  if st.intervalNumber = 1 then
    -- interval 1, down
    ⟨st.intervalNumber + 1, ⟨0, 0.5⟩⟩
  else if st.intervalNumber = 2 then
    -- interval 2, up
    ⟨st.intervalNumber + 1, ⟨0, -0.5⟩⟩
  else if st.intervalNumber = 3 then
    -- interval 3, right
    ⟨st.intervalNumber + 1, ⟨0.5, 0⟩⟩
  else
    -- interval 4, left
    ⟨1, ⟨-0.5, 0⟩⟩

/-- Scene-2 state before the first timer tick: `intervalNumber = 1`,
gravity at the engine default. -/
def scene2Start : Scene2State := ⟨1, ⟨0, 1⟩⟩

/-- Scene-2 state after `n` timer ticks (one tick per 3 seconds,
scheduled by `changeGravity`'s `setInterval(setGravity, 3000)`). -/
def ticks : Nat → Scene2State
  | 0 => scene2Start
  | n + 1 => setGravity (ticks n)

/-- The record `runMatter` returns (lines 535-551), restricted to what
claims are about.  `attractiveBody` is an `Option` because the JS
`var attractiveBody` is function-scoped and stays `undefined` when no
`case` of the `switch (choice)` runs. -/
structure MatterData where
  choice : Nat
  attractiveBody : Option MBody
  worldBodies : List MBody
  gravity : Gravity
  deriving DecidableEq, Repr

/-- `runMatter` (lines 264-555), restricted to the bodies added to the
world and the returned record.  Bodies carry fresh ids in creation order
(`Matter.Bodies.*` allocates a new object per call; id equality models JS
reference equality).  Constraints, render/sprite options, mass and
friction do not bear on any claim and are elided.  Crucially, the JS
`var attractiveBody` bindings inside `case 1` and `case 2` are
function-scoped, so the `attractiveBody` field of the returned `data`
object refers to the very body allocated by whichever case ran. -/
def runMatter (choice : Nat) : MatterData :=
  if choice = 1 then
    -- case 1: engine.world.gravity zeroed, scale 0.1 then 0
    let attractiveBody : MBody := ⟨0, dimensionsW / 2, dimensionsH / 2, true⟩
    -- art & design (created but commented out of the World.add list)
    let illustration : MBody := ⟨1, 600, 500, false⟩
    let art : MBody := ⟨2, 35, 460, false⟩
    let threeD : MBody := ⟨3, 90, 460, false⟩
    let graphic : MBody := ⟨4, 60, 420, false⟩
    let photo : MBody := ⟨5, 50, 380, false⟩
    let documentary : MBody := ⟨6, 220, 540, false⟩
    let animation : MBody := ⟨7, 200, 490, false⟩
    let play : MBody := ⟨8, 190, 440, false⟩
    let climb : MBody := ⟨9, 190, 440, false⟩
    let danceD : MBody := ⟨10, 100 * 3.5, 950, false⟩
    let danceA : MBody := ⟨11, 191.5 * 3.5, 950, false⟩
    let danceN : MBody := ⟨12, 284.5 * 3.5, 950, false⟩
    let danceC : MBody := ⟨13, 368.5 * 3.5, 950, false⟩
    let danceE : MBody := ⟨14, 458.5 * 3.5, 950, false⟩
    let dance2D : MBody := ⟨15, 100 * 3.5, 200, false⟩
    let dance2A : MBody := ⟨16, 191.5 * 3.5, 200, false⟩
    let dance2N : MBody := ⟨17, 284.5 * 3.5, 200, false⟩
    let dance2C : MBody := ⟨18, 368.5 * 3.5, 200, false⟩
    let dance2E : MBody := ⟨19, 458.5 * 3.5, 200, false⟩
    -- Sprint (created but commented out of the World.add list)
    let sprintAnd : MBody := ⟨20, 548.5, 650, false⟩
    let sprintS : MBody := ⟨21, 649, 650, false⟩
    let sprintP : MBody := ⟨22, 731.5, 650, false⟩
    let sprintR : MBody := ⟨23, 821.5, 650, false⟩
    let sprintI : MBody := ⟨24, 875.5, 650, false⟩
    let sprintN : MBody := ⟨25, 902.5, 650, false⟩
    let sprintT : MBody := ⟨26, 985, 650, false⟩
    -- Stretch
    let stretchAnd : MBody := ⟨27, 1042, 650, false⟩
    let stretchS : MBody := ⟨28, 1142.5, 650, false⟩
    let stretchT : MBody := ⟨29, 1222, 650, false⟩
    let stretchR : MBody := ⟨30, 1282, 650, false⟩
    let stretchE : MBody := ⟨31, 1330, 650, false⟩
    let stretchT2 : MBody := ⟨32, 1412.5, 650, false⟩
    let stretchC : MBody := ⟨33, 1472.5, 650, false⟩
    let stretchH : MBody := ⟨34, 1558, 650, false⟩
    -- Jump row (source names them stretch2*)
    let stretch2And : MBody := ⟨35, 1042 * 2, 650, false⟩
    let stretch2S : MBody := ⟨36, 1142.5 * 2, 650, false⟩
    let stretch2T : MBody := ⟨37, 1222 * 2, 650, false⟩
    let stretch2R : MBody := ⟨38, 1282 * 2, 650, false⟩
    let stretch2E : MBody := ⟨39, 1330 * 2, 650, false⟩
    -- World.add(world, attractiveBody) at line 337, then the list at 393-398
    let worldBodies : List MBody :=
      [attractiveBody] ++
      [danceD, danceA, danceN, danceC, danceE,
       dance2D, dance2A, dance2N, dance2C, dance2E,
       stretchS, stretchAnd, stretchT, stretchR, stretchE, stretchT2,
       stretchC, stretchH, stretch2S, stretch2And, stretch2T, stretch2R,
       stretch2E]
    ⟨choice, some attractiveBody, worldBodies, ⟨0, 0⟩⟩
  else if choice = 2 then
    let attractiveBody : MBody := ⟨0, dimensionsW / 2, dimensionsH / 2, true⟩
    let ceiling : MBody := ⟨1, percentX 100 / 2, percentY 0 - 10, true⟩
    let floor : MBody := ⟨2, percentX 100 / 2, percentY 100 + 10, true⟩
    let rightWall : MBody := ⟨3, percentX 100 + 10, percentY 100 / 2, true⟩
    let leftWall : MBody := ⟨4, percentX 0 - 10, percentY 100 / 2, true⟩
    let dance : MBody := ⟨5, 200, 0, false⟩
    let sprint : MBody := ⟨6, 250, 0, false⟩
    let stretch : MBody := ⟨7, 800, 0, false⟩
    let push : MBody := ⟨8, 600, 0, false⟩
    let lift : MBody := ⟨9, 800, 0, false⟩
    let bend : MBody := ⟨10, 120, 0, false⟩
    let kick : MBody := ⟨11, 500, 0, false⟩
    let play : MBody := ⟨12, 700, 0, false⟩
    let climb : MBody := ⟨13, 400, 0, false⟩
    -- World.add(world, attractiveBody); bodies.push walls, then
    -- bodies.push(climb, play, kick, bend, lift, push, stretch, sprint, dance)
    let worldBodies : List MBody :=
      [attractiveBody] ++
      [ceiling, floor, rightWall, leftWall] ++
      [climb, play, kick, bend, lift, push, stretch, sprint, dance]
    ⟨choice, some attractiveBody, worldBodies, scene2Start.gravity⟩
  else
    -- no case runs: `var attractiveBody` stays undefined, world stays empty
    ⟨choice, none, [], ⟨0, 1⟩⟩

/-- Line 582: `let m = runMatter(1)` — the module-level record whose
`attractiveBody` and `Body` fields `usePoses` reads. -/
def m : MatterData := runMatter 1

/-- The single pose of `c1Poses`: 11 keypoints, keypoint 10 being
`⟨110, 50, some 0.5⟩`. -/
def c1Pose0 : Pose :=
  ⟨[⟨100, 50, some 0.5⟩, ⟨101, 50, some 0.5⟩, ⟨102, 50, some 0.5⟩,
    ⟨103, 50, some 0.5⟩, ⟨104, 50, some 0.5⟩, ⟨105, 50, some 0.5⟩,
    ⟨106, 50, some 0.5⟩, ⟨107, 50, some 0.5⟩, ⟨108, 50, some 0.5⟩,
    ⟨109, 50, some 0.5⟩, ⟨110, 50, some 0.5⟩]⟩

/-- Concrete input for the C1 witness. -/
def c1Poses : List Pose := [c1Pose0]

/-- Keypoint 10 of `c1Pose0`. -/
def c1Kp : Keypoint := ⟨110, 50, some 0.5⟩

/-- Attractor body used by the C1 witness, starting away from the target. -/
def c1Body : MBody := ⟨0, 7, 8, true⟩

/-- The single pose of `c7Poses`: keypoint 10 has score 0.1 < 0.3. -/
def c7Pose0 : Pose :=
  ⟨[⟨100, 50, some 0.1⟩, ⟨101, 50, some 0.1⟩, ⟨102, 50, some 0.1⟩,
    ⟨103, 50, some 0.1⟩, ⟨104, 50, some 0.1⟩, ⟨105, 50, some 0.1⟩,
    ⟨106, 50, some 0.1⟩, ⟨107, 50, some 0.1⟩, ⟨108, 50, some 0.1⟩,
    ⟨109, 50, some 0.1⟩, ⟨110, 50, some 0.1⟩]⟩

/-- Concrete input for the C7 witness. -/
def c7Poses : List Pose := [c7Pose0]

/-- Keypoint 10 of `c7Pose0`. -/
def c7Kp : Keypoint := ⟨110, 50, some 0.1⟩

/-- Attractor body used by the C7 witness. -/
def c7Body : MBody := ⟨0, 7, 8, true⟩

/-- Gravity pointing down, as written by interval 1 of `setGravity`. -/
def gDown : Gravity := ⟨0, 0.5⟩
/-- Gravity pointing up, as written by interval 2 of `setGravity`. -/
def gUp : Gravity := ⟨0, -0.5⟩
/-- Gravity pointing right, as written by interval 3 of `setGravity`. -/
def gRight : Gravity := ⟨0.5, 0⟩
/-- Gravity pointing left, as written by the `else` branch of `setGravity`. -/
def gLeft : Gravity := ⟨-0.5, 0⟩

/-- The four gravity directions in the order the timer writes them. -/
def gravityCycle : List Gravity := [gDown, gUp, gRight, gLeft]

/-- The four interval states the timer cycles through, starting after the
first tick. -/
def stateCycle : List Scene2State :=
  [⟨2, gDown⟩, ⟨3, gUp⟩, ⟨4, gRight⟩, ⟨1, gLeft⟩]

/-- Well-formedness of a detection result: every pose carries more than 10
keypoints (all three supported models emit at least 17), so
`poses[0].keypoints[10]` exists and `usePoses` does not throw. -/
def PosesOk (ps : List Pose) : Prop := ∀ p ∈ ps, 10 < p.keypoints.length

instance (ps : List Pose) : Decidable (PosesOk ps) := by
  unfold PosesOk; infer_instance

/-- The stale pose retained across frames in the C2 scenario: 11 keypoints
with confident scores. -/
def c2Pose : Pose :=
  ⟨[⟨100, 50, some 1⟩, ⟨101, 50, some 1⟩, ⟨102, 50, some 1⟩,
    ⟨103, 50, some 1⟩, ⟨104, 50, some 1⟩, ⟨105, 50, some 1⟩,
    ⟨106, 50, some 1⟩, ⟨107, 50, some 1⟩, ⟨108, 50, some 1⟩,
    ⟨109, 50, some 1⟩, ⟨110, 50, some 1⟩]⟩

/-- The static attractor body `runMatter`'s `case 1` allocates at screen
centre (`Bodies.circle(render.options.width / 2, render.options.height / 2,
..., isStatic: true, ...)`, lines 314-335). -/
def scene1Attractor : MBody := ⟨0, dimensionsW / 2, dimensionsH / 2, true⟩

/-! ## Helper lemmas -/

theorem flipKeypoint_flipKeypoint (sz : ImageSize) (kp : Keypoint) :
    flipKeypoint sz (flipKeypoint sz kp) = kp := by
  cases kp with
  | mk x y score =>
    simp only [flipKeypoint]
    congr 1
    ring

theorem flipPose_flipPose (sz : ImageSize) (pose : Pose) :
    flipPose sz (flipPose sz pose) = pose := by
  cases pose with
  | mk kps =>
    simp only [flipPose, List.map_map]
    congr 1
    have h : flipKeypoint sz ∘ flipKeypoint sz = id :=
      funext fun kp => flipKeypoint_flipKeypoint sz kp
    rw [h, List.map_id]

theorem flipPose_keypoints_length (sz : ImageSize) (pose : Pose) :
    (flipPose sz pose).keypoints.length = pose.keypoints.length := by
  simp [flipPose]

/-! ## Claim theorems -/

/-- C6: for every list of poses and every fixed frame size, applying the
horizontal flip (`x' = width - 1 - x` on every keypoint of every pose)
twice returns every keypoint to its original coordinates: the flip is an
involution. -/
theorem flipPosesHorizontal_involution (poses : List Pose) (imageSize : ImageSize) :
    flipPosesHorizontal (flipPosesHorizontal poses imageSize) imageSize = poses := by
  simp only [flipPosesHorizontal, List.map_map]
  have h : flipPose imageSize ∘ flipPose imageSize = id :=
    funext fun p => flipPose_flipPose imageSize p
  rw [h, List.map_id]

/-- C8: with model BlazePose and backend `"tfjs-webgl"`, `createDetector`
extracts the runtime `"tfjs"` (prefix before the first `'-'`) and passes a
configuration carrying `runtime` and `modelType` but no `solutionPath`. -/
theorem createDetector_blazepose_tfjs (s : AppState)
    (h1 : s.model = SupportedModels.BlazePose)
    (h2 : s.backend = "tfjs-webgl") :
    splitHead s.backend = "tfjs" ∧
    (createDetector s).config.runtime = some "tfjs" ∧
    (createDetector s).config.modelType =
      some (ModelTypeVal.str s.modelConfig.type) ∧
    (createDetector s).config.solutionPath = none := by
  have hsp : splitHead "tfjs-webgl" = "tfjs" := by decide
  refine ⟨by rw [h2, hsp], ?_, ?_, ?_⟩ <;>
    simp [createDetector, h1, h2, hsp]

/-- Witness for C8 at a concrete state. -/
theorem createDetector_blazepose_tfjs_witness :
    (AppState.mk SupportedModels.BlazePose "tfjs-webgl"
        ⟨"full", "", false, 1⟩ false false false false false).model =
          SupportedModels.BlazePose ∧
    splitHead "tfjs-webgl" = "tfjs" ∧
    (createDetector (AppState.mk SupportedModels.BlazePose "tfjs-webgl"
        ⟨"full", "", false, 1⟩ false false false false false)).config.runtime =
      some "tfjs" := by
  have h := createDetector_blazepose_tfjs
    (AppState.mk SupportedModels.BlazePose "tfjs-webgl"
      ⟨"full", "", false, 1⟩ false false false false false) rfl rfl
  exact ⟨rfl, h.1, h.2.1⟩

/-- C9: with model MoveNet and configured type `'lightning'`,
`createDetector` resolves the model type to the single-pose lightning
enum value, and (the custom-model field being empty) the configuration
carries no custom model URL and no tracking flag. -/
theorem createDetector_movenet_lightning (s : AppState)
    (h1 : s.model = SupportedModels.MoveNet)
    (h2 : s.modelConfig.type = "lightning")
    (h3 : s.modelConfig.customModel = "") :
    (createDetector s).config.modelType =
      some (ModelTypeVal.movenet MoveNetModelType.SINGLEPOSE_LIGHTNING) ∧
    (createDetector s).config.modelUrl = none ∧
    (createDetector s).config.enableTracking = none := by
  refine ⟨?_, ?_, ?_⟩ <;> simp [createDetector, movenetArm, h1, h2, h3]

/-- Witness for C9 at a concrete state. -/
theorem createDetector_movenet_lightning_witness :
    (createDetector (AppState.mk SupportedModels.MoveNet "tfjs-webgl"
        ⟨"lightning", "", false, 1⟩ false false false false false)).config.modelType =
      some (ModelTypeVal.movenet MoveNetModelType.SINGLEPOSE_LIGHTNING) ∧
    (createDetector (AppState.mk SupportedModels.MoveNet "tfjs-webgl"
        ⟨"lightning", "", false, 1⟩ false false false false false)).config.modelUrl =
      none := by
  have h := createDetector_movenet_lightning
    (AppState.mk SupportedModels.MoveNet "tfjs-webgl"
      ⟨"lightning", "", false, 1⟩ false false false false false) rfl rfl rfl
  exact ⟨h.1, h.2.1⟩

/-- C10: with model BlazePose and a backend whose prefix before the first
`'-'` is neither `"mediapipe"` nor `"tfjs"`, neither BlazePose branch
returns; control falls through the `switch` into the MoveNet arm, so the
request is built by the MoveNet configuration logic but still names the
BlazePose model. -/
theorem createDetector_blazepose_fallthrough (s : AppState)
    (h1 : s.model = SupportedModels.BlazePose)
    (h2 : splitHead s.backend ≠ "mediapipe")
    (h3 : splitHead s.backend ≠ "tfjs") :
    createDetector s = movenetArm s ∧
    (createDetector s).model = SupportedModels.BlazePose := by
  have hfall : createDetector s = movenetArm s := by
    simp [createDetector, h1, h2, h3]
  exact ⟨hfall, by rw [hfall]; simp [movenetArm, h1]⟩

/-- Witness for C10 at a concrete state (backend `"wasm"`, BlazePose type
`"full"`): the fall-through additionally leaves `modelType` undefined,
since `"full"` is none of the MoveNet type strings. -/
theorem createDetector_blazepose_fallthrough_witness :
    splitHead "wasm" ≠ "mediapipe" ∧ splitHead "wasm" ≠ "tfjs" ∧
    createDetector (AppState.mk SupportedModels.BlazePose "wasm"
        ⟨"full", "", false, 1⟩ false false false false false) =
      movenetArm (AppState.mk SupportedModels.BlazePose "wasm"
        ⟨"full", "", false, 1⟩ false false false false false) ∧
    (createDetector (AppState.mk SupportedModels.BlazePose "wasm"
        ⟨"full", "", false, 1⟩ false false false false false)).model =
      SupportedModels.BlazePose ∧
    (createDetector (AppState.mk SupportedModels.BlazePose "wasm"
        ⟨"full", "", false, 1⟩ false false false false false)).config.modelType =
      none := by
  have h := createDetector_blazepose_fallthrough
    (AppState.mk SupportedModels.BlazePose "wasm"
      ⟨"full", "", false, 1⟩ false false false false false)
    rfl (by decide) (by decide)
  exact ⟨by decide, by decide, h.1, h.2, by decide⟩

/-- C1: when the selected keypoint's score (defaulting to 1 when absent)
is at least 0.3, `usePoses` issues `Body.translate` with the displacement
`scaled_keypoint - old_position`, so the attractor body's position after
the call is `old_position + (scaled_keypoint - old_position)`: exactly the
mirrored keypoint's coordinates scaled by 2.4. -/
theorem usePoses_moves_to_scaled_keypoint (poses : List Pose) (b : MBody)
    (p0 : Pose) (kp : Keypoint)
    (h1 : poses.head? = some p0)
    (h2 : p0.keypoints.get? 10 = some kp)
    (h3 : kpScore kp ≥ scoreThreshold) :
    usePoses poses b =
      some (flipPosesHorizontal poses usePosesImageSize,
        bodyTranslate b
          ((usePosesImageSize.width - 1 - kp.x) * 2.4 - b.posX)
          (kp.y * 2.4 - b.posY)) ∧
    (bodyTranslate b
        ((usePosesImageSize.width - 1 - kp.x) * 2.4 - b.posX)
        (kp.y * 2.4 - b.posY)).posX = (usePosesImageSize.width - 1 - kp.x) * 2.4 ∧
    (bodyTranslate b
        ((usePosesImageSize.width - 1 - kp.x) * 2.4 - b.posX)
        (kp.y * 2.4 - b.posY)).posY = kp.y * 2.4 := by
  have hh : (flipPosesHorizontal poses usePosesImageSize).head? =
      some (flipPose usePosesImageSize p0) := by
    rw [flipPosesHorizontal, List.head?_map, h1]; rfl
  have hg : (flipPose usePosesImageSize p0).keypoints.get? 10 =
      some (flipKeypoint usePosesImageSize kp) := by
    show (p0.keypoints.map (flipKeypoint usePosesImageSize)).get? 10 = _
    rw [List.get?_map, h2]; rfl
  have hscore : kpScore (flipKeypoint usePosesImageSize kp) = kpScore kp := rfl
  refine ⟨?_, ?_, ?_⟩
  · simp only [usePoses, hh, hg, hscore]
    rw [if_pos h3]
    simp [flipKeypoint]
  · simp only [bodyTranslate]; ring
  · simp only [bodyTranslate]; ring

/-- Witness for C1 at a concrete input. -/
theorem usePoses_moves_to_scaled_keypoint_witness :
    usePoses c1Poses c1Body =
      some (flipPosesHorizontal c1Poses usePosesImageSize,
        bodyTranslate c1Body
          ((usePosesImageSize.width - 1 - c1Kp.x) * 2.4 - c1Body.posX)
          (c1Kp.y * 2.4 - c1Body.posY)) ∧
    (bodyTranslate c1Body
        ((usePosesImageSize.width - 1 - c1Kp.x) * 2.4 - c1Body.posX)
        (c1Kp.y * 2.4 - c1Body.posY)).posX =
      (usePosesImageSize.width - 1 - c1Kp.x) * 2.4 ∧
    (bodyTranslate c1Body
        ((usePosesImageSize.width - 1 - c1Kp.x) * 2.4 - c1Body.posX)
        (c1Kp.y * 2.4 - c1Body.posY)).posY = c1Kp.y * 2.4 :=
  usePoses_moves_to_scaled_keypoint c1Poses c1Body c1Pose0 c1Kp
    rfl rfl (by norm_num [kpScore, c1Kp, scoreThreshold])

/-- C7: when the selected keypoint's score is present and below 0.3,
`usePoses` issues no translate: the attractor body is returned unchanged. -/
theorem usePoses_below_threshold_no_move (poses : List Pose) (b : MBody)
    (p0 : Pose) (kp : Keypoint) (sc : ℚ)
    (h1 : poses.head? = some p0)
    (h2 : p0.keypoints.get? 10 = some kp)
    (h3 : kp.score = some sc)
    (h4 : sc < scoreThreshold) :
    usePoses poses b = some (flipPosesHorizontal poses usePosesImageSize, b) := by
  have hh : (flipPosesHorizontal poses usePosesImageSize).head? =
      some (flipPose usePosesImageSize p0) := by
    rw [flipPosesHorizontal, List.head?_map, h1]; rfl
  have hg : (flipPose usePosesImageSize p0).keypoints.get? 10 =
      some (flipKeypoint usePosesImageSize kp) := by
    show (p0.keypoints.map (flipKeypoint usePosesImageSize)).get? 10 = _
    rw [List.get?_map, h2]; rfl
  have hscore : kpScore (flipKeypoint usePosesImageSize kp) = sc := by
    simp [kpScore, flipKeypoint, h3]
  simp only [usePoses, hh, hg, hscore]
  rw [if_neg (not_le.mpr h4)]

/-- Witness for C7 at a concrete input. -/
theorem usePoses_below_threshold_no_move_witness :
    usePoses c7Poses c7Body =
      some (flipPosesHorizontal c7Poses usePosesImageSize, c7Body) :=
  usePoses_below_threshold_no_move c7Poses c7Body c7Pose0 c7Kp 0.1
    rfl rfl rfl (by norm_num [scoreThreshold])

/-- C4: whenever `isBackendChanged` is true at the start of a loop check,
`checkGuiUpdate` disposes the current detector (if present), reapplies the
backend/environment flags, attempts to construct a new detector, and
leaves all three dirty flags `isModelChanged`, `isFlagChanged`,
`isBackendChanged` false afterwards — also when construction throws, in
which case the detector is left null and the user alerted. -/
theorem checkGuiUpdate_backend_changed (st : GuiState) (cr : CreateResult)
    (h : st.app.isBackendChanged = true) :
    (checkGuiUpdate st cr).2.disposedDetector = st.detector ∧
    (checkGuiUpdate st cr).2.envFlagsReapplied = true ∧
    (checkGuiUpdate st cr).2.attemptedCreate = true ∧
    (checkGuiUpdate st cr).1.app.isModelChanged = false ∧
    (checkGuiUpdate st cr).1.app.isFlagChanged = false ∧
    (checkGuiUpdate st cr).1.app.isBackendChanged = false ∧
    (checkGuiUpdate st cr).1.detector =
      (match cr with
       | CreateResult.ok d => some d
       | CreateResult.err => none) ∧
    (cr = CreateResult.err →
      (checkGuiUpdate st cr).1.detector = none ∧
      (checkGuiUpdate st cr).2.alerted = true) := by
  obtain ⟨⟨mo, ba, mc, f1, f2, f3, f4, f5⟩, det⟩ := st
  simp only at h
  subst h
  cases f4 <;> cases f5 <;> cases cr <;>
    simp [checkGuiUpdate]

/-- Witness for C4 at a concrete state with a throwing construction. -/
theorem checkGuiUpdate_backend_changed_witness :
    (checkGuiUpdate
        ⟨AppState.mk SupportedModels.MoveNet "tfjs-webgl"
          ⟨"lightning", "", false, 1⟩ false false true false false, some 7⟩
        CreateResult.err).2.disposedDetector = some 7 ∧
    (checkGuiUpdate
        ⟨AppState.mk SupportedModels.MoveNet "tfjs-webgl"
          ⟨"lightning", "", false, 1⟩ false false true false false, some 7⟩
        CreateResult.err).2.envFlagsReapplied = true ∧
    (checkGuiUpdate
        ⟨AppState.mk SupportedModels.MoveNet "tfjs-webgl"
          ⟨"lightning", "", false, 1⟩ false false true false false, some 7⟩
        CreateResult.err).1.app.isModelChanged = false ∧
    (checkGuiUpdate
        ⟨AppState.mk SupportedModels.MoveNet "tfjs-webgl"
          ⟨"lightning", "", false, 1⟩ false false true false false, some 7⟩
        CreateResult.err).1.app.isFlagChanged = false ∧
    (checkGuiUpdate
        ⟨AppState.mk SupportedModels.MoveNet "tfjs-webgl"
          ⟨"lightning", "", false, 1⟩ false false true false false, some 7⟩
        CreateResult.err).1.app.isBackendChanged = false ∧
    (checkGuiUpdate
        ⟨AppState.mk SupportedModels.MoveNet "tfjs-webgl"
          ⟨"lightning", "", false, 1⟩ false false true false false, some 7⟩
        CreateResult.err).1.detector = none := by
  have h := checkGuiUpdate_backend_changed
    ⟨AppState.mk SupportedModels.MoveNet "tfjs-webgl"
      ⟨"lightning", "", false, 1⟩ false false true false false, some 7⟩
    CreateResult.err rfl
  exact ⟨h.1, h.2.1, h.2.2.2.1, h.2.2.2.2.1, h.2.2.2.2.2.1, (h.2.2.2.2.2.2.2 rfl).1⟩

theorem ticks_succ_mod (n : Nat) :
    ticks (n + 1) = stateCycle.getD (n % 4) ⟨1, gDown⟩ := by
  induction n with
  | zero => rfl
  | succ m ih =>
    have hs : ticks (m + 1 + 1) = setGravity (ticks (m + 1)) := rfl
    have h4 : m % 4 = 0 ∨ m % 4 = 1 ∨ m % 4 = 2 ∨ m % 4 = 3 := by omega
    rcases h4 with h | h | h | h
    · have h2 : (m + 1) % 4 = 1 := by omega
      rw [hs, ih, h, h2]; rfl
    · have h2 : (m + 1) % 4 = 2 := by omega
      rw [hs, ih, h, h2]; rfl
    · have h2 : (m + 1) % 4 = 3 := by omega
      rw [hs, ih, h, h2]; rfl
    · have h2 : (m + 1) % 4 = 0 := by omega
      rw [hs, ih, h, h2]; rfl

theorem stateCycle_gravity_getD (r : Nat) :
    (stateCycle.getD r ⟨1, gDown⟩).gravity = gravityCycle.getD r gDown := by
  match r with
  | 0 => rfl
  | 1 => rfl
  | 2 => rfl
  | 3 => rfl
  | r + 4 => rfl

theorem ticks_gravity (n : Nat) :
    (ticks (n + 1)).gravity = gravityCycle.getD (n % 4) gDown := by
  rw [ticks_succ_mod, stateCycle_gravity_getD]

/-- C5: starting from the initial interval state, tick `n+1` writes the
gravity direction `gravityCycle[n % 4]` — the fixed repeating order
down (y=0.5), up (y=-0.5), right (x=0.5), left (x=-0.5); the interval
state is periodic with period 4 (the cycle loops indefinitely); and any
window of four consecutive ticks (≥ 12 seconds at one tick per 3 seconds)
writes each of the four directions exactly once. -/
theorem setGravity_cycles (n : Nat) :
    (ticks (n + 1)).gravity = gravityCycle.getD (n % 4) gDown ∧
    ticks (n + 5) = ticks (n + 1) ∧
    ((List.range 4).map fun k => (ticks (n + k + 1)).gravity).Perm gravityCycle := by
  refine ⟨ticks_gravity n, ?_, ?_⟩
  · have e1 : n + 5 = (n + 4) + 1 := rfl
    have e2 : (n + 4) % 4 = n % 4 := by omega
    rw [e1, ticks_succ_mod, ticks_succ_mod, e2]
  · have hmap : ((List.range 4).map fun k => (ticks (n + k + 1)).gravity) =
        [(ticks (n + 0 + 1)).gravity, (ticks (n + 1 + 1)).gravity,
         (ticks (n + 2 + 1)).gravity, (ticks (n + 3 + 1)).gravity] := rfl
    rw [hmap, ticks_gravity (n + 0), ticks_gravity (n + 1),
        ticks_gravity (n + 2), ticks_gravity (n + 3)]
    have h4 : n % 4 = 0 ∨ n % 4 = 1 ∨ n % 4 = 2 ∨ n % 4 = 3 := by omega
    rcases h4 with h | h | h | h
    · have q0 : (n + 0) % 4 = 0 := by omega
      have q1 : (n + 1) % 4 = 1 := by omega
      have q2 : (n + 2) % 4 = 2 := by omega
      have q3 : (n + 3) % 4 = 3 := by omega
      rw [q0, q1, q2, q3]
      exact List.Perm.refl gravityCycle
    · have q0 : (n + 0) % 4 = 1 := by omega
      have q1 : (n + 1) % 4 = 2 := by omega
      have q2 : (n + 2) % 4 = 3 := by omega
      have q3 : (n + 3) % 4 = 0 := by omega
      rw [q0, q1, q2, q3]
      exact @List.perm_append_comm Gravity [gUp, gRight, gLeft] [gDown]
    · have q0 : (n + 0) % 4 = 2 := by omega
      have q1 : (n + 1) % 4 = 3 := by omega
      have q2 : (n + 2) % 4 = 0 := by omega
      have q3 : (n + 3) % 4 = 1 := by omega
      rw [q0, q1, q2, q3]
      exact @List.perm_append_comm Gravity [gRight, gLeft] [gDown, gUp]
    · have q0 : (n + 0) % 4 = 3 := by omega
      have q1 : (n + 1) % 4 = 0 := by omega
      have q2 : (n + 2) % 4 = 1 := by omega
      have q3 : (n + 3) % 4 = 2 := by omega
      rw [q0, q1, q2, q3]
      exact @List.perm_append_comm Gravity [gLeft] [gDown, gUp, gRight]

theorem flipPosesHorizontal_length (ps : List Pose) (sz : ImageSize) :
    (flipPosesHorizontal ps sz).length = ps.length := by
  simp [flipPosesHorizontal]

theorem PosesOk_flip (ps : List Pose) (sz : ImageSize) (h : PosesOk ps) :
    PosesOk (flipPosesHorizontal ps sz) := by
  intro p hp
  rw [flipPosesHorizontal] at hp
  obtain ⟨q, hq, rfl⟩ := List.mem_map.mp hp
  rw [flipPose_keypoints_length]
  exact h q hq

theorem usePoses_isSome_of_ok (ps : List Pose) (b : MBody)
    (hne : ps ≠ []) (hok : PosesOk ps) :
    ∃ b2, usePoses ps b = some (flipPosesHorizontal ps usePosesImageSize, b2) := by
  rcases ps with _ | ⟨p0, rest⟩
  · exact absurd rfl hne
  · have hh : (flipPosesHorizontal (p0 :: rest) usePosesImageSize).head? =
        some (flipPose usePosesImageSize p0) := rfl
    have hlen : 10 < (flipPose usePosesImageSize p0).keypoints.length := by
      rw [flipPose_keypoints_length]
      exact hok p0 (List.mem_cons_self p0 rest)
    obtain ⟨kp, hkp⟩ : ∃ kp,
        (flipPose usePosesImageSize p0).keypoints.get? 10 = some kp :=
      ⟨_, List.get?_eq_get hlen⟩
    by_cases hsc : kpScore kp ≥ scoreThreshold
    · refine ⟨bodyTranslate b (kp.x * 2.4 - b.posX) (kp.y * 2.4 - b.posY), ?_⟩
      simp only [usePoses, hh, hkp]
      rw [if_pos hsc]
    · refine ⟨b, ?_⟩
      simp only [usePoses, hh, hkp]
      rw [if_neg hsc]

theorem renderResult_stale (det : Option Nat) (poses : Option (List Pose))
    (b : MBody) (imc : Bool) (outcome : DetectOutcome)
    (hwf : ∀ ps, poses = some ps → PosesOk ps)
    (hno : det = none ∨ outcome = DetectOutcome.throws) :
    ∃ st2 eff, renderResult ⟨det, poses, b, imc⟩ outcome = some (st2, eff) ∧
      st2.detector = none ∧
      eff.drewCamera = true ∧
      eff.alerted = det.isSome ∧
      eff.drewOverlay = ((poses.getD []).length > 0 && !imc) ∧
      eff.bridgeCalled = eff.drewOverlay ∧
      (st2.poses.getD []).length = (poses.getD []).length ∧
      st2.isModelChanged = imc ∧
      (∀ ps, st2.poses = some ps → PosesOk ps) := by
  have hred : renderResult ⟨det, poses, b, imc⟩ outcome =
      (if (poses.getD []).length > 0 && !imc then
        match usePoses (poses.getD []) b with
        | none => none
        | some (flipped, b2) =>
            some (⟨none, some flipped, b2, imc⟩, ⟨true, true, true, det.isSome⟩)
      else
        some (⟨none, poses, b, imc⟩, ⟨true, false, false, det.isSome⟩)) := by
    rcases det with _ | d
    · rfl
    · rcases hno with h | h
      · exact absurd h (by simp)
      · subst h; rfl
  rw [hred]
  by_cases hb : ((poses.getD []).length > 0 && !imc) = true
  · rw [if_pos hb]
    rcases poses with _ | ps
    · simp at hb
    · have hok : PosesOk ps := hwf ps rfl
      have hne : ps ≠ [] := by
        intro hnil
        subst hnil
        simp at hb
      obtain ⟨b2, hu⟩ := usePoses_isSome_of_ok ps b hne hok
      have hget : (some ps).getD [] = ps := rfl
      rw [hget, hu]
      refine ⟨_, _, rfl, rfl, rfl, rfl, hb.symm, rfl, ?_, rfl, ?_⟩
      · show (flipPosesHorizontal ps usePosesImageSize).length = ps.length
        exact flipPosesHorizontal_length ps usePosesImageSize
      · intro ps2 h2
        injection h2 with h2
        subst h2
        exact PosesOk_flip ps usePosesImageSize hok
  · rw [if_neg hb]
    have hb2 : ((poses.getD []).length > 0 && !imc) = false :=
      Bool.eq_false_iff.mpr hb
    exact ⟨_, _, rfl, rfl, rfl, rfl, hb2.symm, rfl, rfl, rfl, hwf⟩

/-- C2 (amended): when per-frame estimation throws, the handler disposes
and nulls the detector and alerts, and (under well-formed retained poses)
the loop does not crash; but because the module-level `poses` variable is
NOT cleared (`let poses = null` at line 147 is commented out), both the
throwing frame and every following frame still draw the pose overlay and
call the bridge whenever the retained pose list is non-empty and no model
change is pending — the next frame renders camera-only just when the
retained list is empty (or a model change is pending). -/
theorem renderResult_throws_stale_overlay (d : Nat) (poses : Option (List Pose))
    (b : MBody) (imc : Bool)
    (hwf : ∀ ps, poses = some ps → PosesOk ps) :
    ∃ st1 eff1,
      renderResult ⟨some d, poses, b, imc⟩ DetectOutcome.throws = some (st1, eff1) ∧
      st1.detector = none ∧
      eff1.alerted = true ∧
      eff1.drewCamera = true ∧
      eff1.drewOverlay = ((poses.getD []).length > 0 && !imc) ∧
      eff1.bridgeCalled = eff1.drewOverlay ∧
      ∀ outcome2, ∃ st2 eff2,
        renderResult st1 outcome2 = some (st2, eff2) ∧
        st2.detector = none ∧
        eff2.drewCamera = true ∧
        eff2.alerted = false ∧
        eff2.drewOverlay = ((poses.getD []).length > 0 && !imc) ∧
        eff2.bridgeCalled = eff2.drewOverlay := by
  obtain ⟨st1, eff1, h1, hdet1, hcam1, hal1, hov1, hbr1, hlen1, himc1, hwf1⟩ :=
    renderResult_stale (some d) poses b imc DetectOutcome.throws hwf (Or.inr rfl)
  refine ⟨st1, eff1, h1, hdet1, ?_, hcam1, hov1, hbr1, ?_⟩
  · rw [hal1]; rfl
  · intro outcome2
    obtain ⟨st2, eff2, h2, hdet2, hcam2, hal2, hov2, hbr2, _, _, _⟩ :=
      renderResult_stale st1.detector st1.poses st1.attractiveBody
        st1.isModelChanged outcome2 hwf1 (Or.inl hdet1)
    refine ⟨st2, eff2, h2, hdet2, hcam2, ?_, ?_, hbr2⟩
    · rw [hal2, hdet1]; rfl
    · rw [hov2, hlen1, himc1]

/-- Counterexample to C2 as stated: a frame whose estimation throws leaves
the detector null, yet the very next frame still draws the pose overlay
and calls the bridge, because the module-level `poses` kept the previous
frame's non-empty result. -/
theorem renderResult_throws_counterexample :
    ∃ st1 eff1 st2 eff2,
      renderResult ⟨some 0, some [c2Pose], ⟨0, 0, 0, true⟩, false⟩
        DetectOutcome.throws = some (st1, eff1) ∧
      st1.detector = none ∧
      renderResult st1 DetectOutcome.throws = some (st2, eff2) ∧
      eff2.drewOverlay = true ∧
      eff2.bridgeCalled = true := by
  have hwf : ∀ ps, (some [c2Pose] : Option (List Pose)) = some ps → PosesOk ps := by
    intro ps h
    injection h with h
    subst h
    decide
  obtain ⟨st1, eff1, h1, hdet1, hcam1, hal1, hov1, hbr1, hlen1, himc1, hwf1⟩ :=
    renderResult_stale (some 0) (some [c2Pose]) ⟨0, 0, 0, true⟩ false
      DetectOutcome.throws hwf (Or.inr rfl)
  obtain ⟨st2, eff2, h2, hdet2, hcam2, hal2, hov2, hbr2, _, _, _⟩ :=
    renderResult_stale st1.detector st1.poses st1.attractiveBody
      st1.isModelChanged DetectOutcome.throws hwf1 (Or.inl hdet1)
  have hov2' : eff2.drewOverlay = true := by
    rw [hov2, hlen1, himc1]
    rfl
  exact ⟨st1, eff1, st2, eff2, h1, hdet1, h2, hov2', by rw [hbr2, hov2']⟩

/-- Witness for the amended C2 at a concrete input. -/
theorem renderResult_throws_stale_overlay_witness :
    ∃ st1 eff1,
      renderResult ⟨some 0, some [c2Pose], ⟨0, 0, 0, true⟩, false⟩
        DetectOutcome.throws = some (st1, eff1) ∧
      st1.detector = none ∧
      eff1.alerted = true ∧
      eff1.drewCamera = true ∧
      eff1.drewOverlay =
        (((some [c2Pose] : Option (List Pose)).getD []).length > 0 && !false) ∧
      eff1.bridgeCalled = eff1.drewOverlay ∧
      ∀ outcome2, ∃ st2 eff2,
        renderResult st1 outcome2 = some (st2, eff2) ∧
        st2.detector = none ∧
        eff2.drewCamera = true ∧
        eff2.alerted = false ∧
        eff2.drewOverlay =
          (((some [c2Pose] : Option (List Pose)).getD []).length > 0 && !false) ∧
        eff2.bridgeCalled = eff2.drewOverlay :=
  renderResult_throws_stale_overlay 0 (some [c2Pose]) ⟨0, 0, 0, true⟩ false
    (by intro ps h; injection h with h; subst h; decide)

/-- Counterexample to C3 as stated: the body the bridge translates,
`m.attractiveBody`, is not a second body distinct from the static
attractor at screen centre — it is the very same body (`var` is
function-scoped, so the returned field carries the `case 1` binding):
it equals the first body added to the world, and the world of scene 1
contains exactly one static body, that same one. -/
theorem runMatter1_attractor_not_distinct :
    m.attractiveBody = m.worldBodies.head? ∧
    (m.worldBodies.filter fun b => b.isStatic) = [scene1Attractor] ∧
    m.attractiveBody = some scene1Attractor :=
  ⟨rfl, rfl, rfl⟩

/-- C3 (amended): in scene 1 the record `runMatter(1)` returns carries in
`attractiveBody` the SAME static attractor body placed at screen centre
(the unique static body of the world) — the pose bridge translates that
marker body itself, not a distinct second body created identically. -/
theorem runMatter1_attractor_is_center_body :
    m.attractiveBody = some scene1Attractor ∧
    m.worldBodies.head? = some scene1Attractor ∧
    scene1Attractor.isStatic = true ∧
    scene1Attractor.posX = dimensionsW / 2 ∧
    scene1Attractor.posY = dimensionsH / 2 ∧
    (m.worldBodies.filter fun b => b.isStatic).length = 1 :=
  ⟨rfl, rfl, rfl, rfl, rfl, rfl⟩
